import Mathlib

/-!
Shallow embedding of the k8s-glance-backend REST facade.

Each resource API module and HTTP handler is translated into a pure Lean
function.  Remote control-plane calls are modelled by passing the remote
call's result in as an argument (`Except RemoteErr α` for fallible reads,
an explicit stored object for read-modify-write flows).  Go maps are
modelled as association lists (`List (String × String)`); a Go `nil` map
is `Option.none`, a populated map is `Option.some entries`.
-/

namespace K8sGlance

/-- A JSON value, as produced by the gin handlers via `c.JSON`. -/
inductive Json where
  | null
  | str (s : String)
  | num (n : Int)
  | bool (b : Bool)
  | arr (xs : List Json)
  | obj (fields : List (String × Json))

/-- Lookup of a field in a serialized JSON object body (first binding wins,
as in Go map-literal serialization where keys are unique). -/
def lookupField : List (String × Json) → String → Option Json
  | [], _ => none
  | (k, v) :: rest, key => if k == key then some v else lookupField rest key

/-- Whether a serialized object carries a binding for the given key. -/
def hasField (fields : List (String × Json)) (key : String) : Bool :=
  fields.any (fun f => f.1 == key)

/-- Serialize an optional Go string map: a nil map serializes as JSON null. -/
def jsonOfOptMap : Option (List (String × String)) → Json
  | none => Json.null
  | some m => Json.obj (m.map (fun kv => (kv.1, Json.str kv.2)))

/-! ## Remote (control-plane) errors and `base.BaseAPI` -/

/-- The remote API error as observed by the modules: either a structured
`StatusError` carrying code / reason / message, or a plain error. -/
inductive RemoteErr where
  | statusErr (code : Nat) (reason : String) (message : String)
  | basic (message : String)
  deriving DecidableEq, Repr

/-- `BaseAPI.HandleError`: re-wrap the remote error with the local operation
name.  `%v` on a `StatusError` prints its message. -/
def handleError (e : RemoteErr) (operation : String) : String :=
  match e with
  | RemoteErr.statusErr code reason message =>
      operation ++ " failed: " ++ message ++ " (Code: " ++ toString code ++
        ", Reason: " ++ reason ++ ")"
  | RemoteErr.basic message => operation ++ " failed: " ++ message

/-- The remote NotFound error returned when deleting a missing config map. -/
def configMapNotFoundErr (name : String) : RemoteErr :=
  RemoteErr.statusErr 404 "NotFound" ("configmaps \x22" ++ name ++ "\x22 not found")

/-! ## Secret data model and `SecretAPI` (internal/api/secret/secret.go) -/

/-- A `corev1.Secret`, restricted to the fields the facade touches. -/
structure Secret where
  name : String
  ns : String
  secretType : String
  data : Option (List (String × String))
  stringData : Option (List (String × String))
  labels : Option (List (String × String))
  annotations : Option (List (String × String))
  creationTime : Nat
  deriving DecidableEq, Repr

/-- The post-fetch redaction applied by the secret module:
`secret.Data = nil; secret.StringData = nil`. -/
def redactSecret (s : Secret) : Secret :=
  { s with data := none, stringData := none }

/-- `SecretAPI.ListSecrets`: list from the remote, then strip the value
payloads of every item before the list leaves the module. -/
def listSecretsModule (remote : Except RemoteErr (List Secret)) :
    Except String (List Secret) :=
  match remote with
  | Except.error e => Except.error (handleError e "list secrets")
  | Except.ok items => Except.ok (items.map redactSecret)

/-- `SecretAPI.GetSecret`: fetch from the remote, then strip the value
payloads before the object leaves the module. -/
def getSecretModule (remote : Except RemoteErr Secret) : Except String Secret :=
  match remote with
  | Except.error e => Except.error (handleError e "get secret")
  | Except.ok s => Except.ok (redactSecret s)

/-! ## Secret handler serialization (internal/api/secret/handler.go) -/

/-- The per-item projection built by `Handler.ListSecrets`. -/
def serializeSecretListEntry (s : Secret) : List (String × Json) :=
  [("name", Json.str s.name),
   ("namespace", Json.str s.ns),
   ("type", Json.str s.secretType),
   ("creationTime", Json.num s.creationTime),
   ("labels", jsonOfOptMap s.labels)]

/-- The data object built by `Handler.GetSecret`. -/
def serializeSecretGetEntry (s : Secret) : List (String × Json) :=
  [("name", Json.str s.name),
   ("namespace", Json.str s.ns),
   ("type", Json.str s.secretType),
   ("creationTime", Json.num s.creationTime),
   ("labels", jsonOfOptMap s.labels),
   ("annotations", jsonOfOptMap s.annotations)]

/-! ## ConfigMap data model and handlers
(internal/api/configmap/configmap.go and its handler file) -/

/-- A `corev1.ConfigMap`, restricted to the fields the facade touches. -/
structure ConfigMap where
  name : String
  ns : String
  data : Option (List (String × String))
  binaryData : Option (List (String × String))
  labels : Option (List (String × String))
  annotations : Option (List (String × String))
  creationTime : Nat
  deriving DecidableEq, Repr

/-- `ConfigMapAPI.ListConfigMaps`: the remote list is returned unmodified. -/
def listConfigMapsModule (remote : Except RemoteErr (List ConfigMap)) :
    Except String (List ConfigMap) :=
  match remote with
  | Except.error e => Except.error (handleError e "list configmaps")
  | Except.ok items => Except.ok items

/-- `ConfigMapAPI.GetConfigMap`: the remote object is returned unmodified. -/
def getConfigMapModule (remote : Except RemoteErr ConfigMap) :
    Except String ConfigMap :=
  match remote with
  | Except.error e => Except.error (handleError e "get configmap")
  | Except.ok cm => Except.ok cm

/-- The per-item projection built by `Handler.ListConfigMaps`:
only a data count, never the data itself. -/
def serializeConfigMapListEntry (cm : ConfigMap) : List (String × Json) :=
  [("name", Json.str cm.name),
   ("namespace", Json.str cm.ns),
   ("dataCount", Json.num (cm.data.getD []).length),
   ("creationTime", Json.num cm.creationTime),
   ("labels", jsonOfOptMap cm.labels)]

/-- The data object built by `Handler.GetConfigMap`: it serializes the
full `data` and `binaryData` maps. -/
def serializeConfigMapGetEntry (cm : ConfigMap) : List (String × Json) :=
  [("name", Json.str cm.name),
   ("namespace", Json.str cm.ns),
   ("data", jsonOfOptMap cm.data),
   ("binaryData", jsonOfOptMap cm.binaryData),
   ("creationTime", Json.num cm.creationTime),
   ("labels", jsonOfOptMap cm.labels),
   ("annotations", jsonOfOptMap cm.annotations)]

/-- Key-wise absence of any value payload in a serialized object:
no raw byte-valued map (`data` / `binaryData`) and no string-keyed map
(`stringData`). -/
def valuePayloadFree (fields : List (String × Json)) : Bool :=
  !(hasField fields "data") && !(hasField fields "stringData") &&
    !(hasField fields "binaryData")

/-! ## Secret update handler (internal/api/secret/handler.go, UpdateSecret)

The handler binds an update request whose three fields are all optional,
fetches the current secret through `SecretAPI.GetSecret` (which redacts the
value payloads), overlays the fields present in the body, and submits the
merged object through `SecretAPI.UpdateSecret`.  The remote update replaces
the stored object with the submitted one. -/

/-- The JSON body of `PUT .../secrets/...`: every field optional. -/
structure SecretUpdateReq where
  stringData : Option (List (String × String))
  labels : Option (List (String × String))
  annotations : Option (List (String × String))
  deriving DecidableEq, Repr

/-- The update request with an empty JSON body: every field absent. -/
def emptySecretUpdateReq : SecretUpdateReq := ⟨none, none, none⟩

/-- Go map assignment `m[k] = v` on an association list. -/
def mapInsert : List (String × String) → String → String → List (String × String)
  | [], k, v => [(k, v)]
  | (k', v') :: rest, k, v =>
      if k' == k then (k', v) :: rest else (k', v') :: mapInsert rest k v

/-- The loop `for k, v := range updateRequest.StringData { existing.Data[k] = []byte(v) }`,
preceded by `if existing.Data == nil { existing.Data = make(...) }`. -/
def mergeStringDataIntoData (existing : Option (List (String × String)))
    (updates : List (String × String)) : List (String × String) :=
  updates.foldl (fun m kv => mapInsert m kv.1 kv.2) (existing.getD [])

/-- The object `Handler.UpdateSecret` submits to the remote update, as a
function of the currently stored secret and the request body.  The handler
starts from the object returned by `GetSecret`, which is the stored secret
with its value payloads redacted. -/
def updateSecretSubmitted (stored : Secret) (req : SecretUpdateReq) : Secret :=
  let existing := redactSecret stored
  let existing :=
    match req.stringData with
    | some sd => { existing with data := some (mergeStringDataIntoData existing.data sd) }
    | none => existing
  let existing :=
    match req.labels with
    | some l => { existing with labels := some l }
    | none => existing
  match req.annotations with
  | some a => { existing with annotations := some a }
  | none => existing

/-- The object `Handler.UpdateConfigMap` submits, as a function of the
currently stored config map and the request body (every field optional);
`GetConfigMap` performs no redaction, so the overlay starts from the stored
object itself. -/
structure ConfigMapUpdateReq where
  data : Option (List (String × String))
  binaryData : Option (List (String × String))
  labels : Option (List (String × String))
  annotations : Option (List (String × String))
  deriving DecidableEq, Repr

/-- The update request with an empty JSON body: every field absent. -/
def emptyConfigMapUpdateReq : ConfigMapUpdateReq := ⟨none, none, none, none⟩

/-- The merged config map submitted back to the remote API. -/
def updateConfigMapSubmitted (stored : ConfigMap) (req : ConfigMapUpdateReq) :
    ConfigMap :=
  let existing := stored
  let existing :=
    match req.data with
    | some d => { existing with data := some d }
    | none => existing
  let existing :=
    match req.binaryData with
    | some b => { existing with binaryData := some b }
    | none => existing
  let existing :=
    match req.labels with
    | some l => { existing with labels := some l }
    | none => existing
  match req.annotations with
  | some a => { existing with annotations := some a }
  | none => existing

/-! ## Pod data model (the fields scanned by the usage lookups) -/

/-- `volume.Secret` reference to a secret by name. -/
structure SecretVolumeSource where
  secretName : String
  deriving DecidableEq, Repr

/-- `volume.ConfigMap` reference to a config map by name. -/
structure ConfigMapVolumeSource where
  name : String
  deriving DecidableEq, Repr

/-- A declared pod volume: at most one of the two sources the scan inspects. -/
structure Volume where
  name : String
  secret : Option SecretVolumeSource
  configMap : Option ConfigMapVolumeSource
  deriving DecidableEq, Repr

/-- A bulk environment import (`envFrom` entry). -/
structure EnvFromSource where
  secretRef : Option String
  configMapRef : Option String
  deriving DecidableEq, Repr

/-- The indirect source of a single environment variable (`valueFrom`). -/
structure EnvVarSource where
  secretKeyRef : Option String
  configMapKeyRef : Option String
  deriving DecidableEq, Repr

/-- A single container environment variable. -/
structure EnvVar where
  name : String
  valueFrom : Option EnvVarSource
  deriving DecidableEq, Repr

/-- A pod container, restricted to the fields the scans inspect. -/
structure Container where
  name : String
  envFrom : List EnvFromSource
  env : List EnvVar
  deriving DecidableEq, Repr

/-- A pod, restricted to the fields the scans inspect. -/
structure Pod where
  name : String
  phase : String
  volumes : List Volume
  containers : List Container
  deriving DecidableEq, Repr

/-! ## Usage lookup (GetSecretUsage / GetConfigMapUsage)

Both loops accumulate per-pod evidence in a `map[string][]string` with the
three fixed keys `volumeMounts`, `envFrom` and `envVars`; the embedding
groups the same appends, in the same order, into a three-list record. -/

/-- Per-pod evidence grouped by reference kind. -/
structure UsageDetails where
  volumeMounts : List String
  envFrom : List String
  envVars : List String
  deriving DecidableEq, Repr

/-- One entry of the `podsUsingSecret` / `podsUsingConfigMap` array. -/
structure UsageEntry where
  podName : String
  status : String
  usage : UsageDetails
  deriving DecidableEq, Repr

/-- `volume.Secret != nil && volume.Secret.SecretName == name`. -/
def volumeMatchesSecret (target : String) (v : Volume) : Bool :=
  match v.secret with
  | some s => s.secretName == target
  | none => false

/-- `env.SecretRef != nil && env.SecretRef.Name == name`. -/
def envFromMatchesSecret (target : String) (e : EnvFromSource) : Bool :=
  match e.secretRef with
  | some n => n == target
  | none => false

/-- `env.ValueFrom != nil && env.ValueFrom.SecretKeyRef != nil && ... == name`. -/
def envVarMatchesSecret (target : String) (e : EnvVar) : Bool :=
  match e.valueFrom with
  | some vf =>
      match vf.secretKeyRef with
      | some n => n == target
      | none => false
  | none => false

/-- `volume.ConfigMap != nil && volume.ConfigMap.Name == name`. -/
def volumeMatchesConfigMap (target : String) (v : Volume) : Bool :=
  match v.configMap with
  | some s => s.name == target
  | none => false

/-- `env.ConfigMapRef != nil && env.ConfigMapRef.Name == name`. -/
def envFromMatchesConfigMap (target : String) (e : EnvFromSource) : Bool :=
  match e.configMapRef with
  | some n => n == target
  | none => false

/-- `env.ValueFrom != nil && env.ValueFrom.ConfigMapKeyRef != nil && ... == name`. -/
def envVarMatchesConfigMap (target : String) (e : EnvVar) : Bool :=
  match e.valueFrom with
  | some vf =>
      match vf.configMapKeyRef with
      | some n => n == target
      | none => false
  | none => false

/-- The contents of the per-pod evidence map after both scan loops, for a
generic triple of match predicates: one volume-mount name per matching
volume, one container name per matching bulk import, one
container:variable pair per matching indirect reference, all in loop
order. -/
def scanDetails (volMatch : Volume → Bool) (fromMatch : EnvFromSource → Bool)
    (varMatch : EnvVar → Bool) (p : Pod) : UsageDetails :=
  { volumeMounts := (p.volumes.filter volMatch).map Volume.name
    envFrom := p.containers.flatMap
      (fun c => (c.envFrom.filter fromMatch).map (fun _ => c.name))
    envVars := p.containers.flatMap
      (fun c => (c.env.filter varMatch).map (fun e => c.name ++ ":" ++ e.name)) }

/-- The `isUsed` flag: set in any of the three matching branches. -/
def scanUsed (volMatch : Volume → Bool) (fromMatch : EnvFromSource → Bool)
    (varMatch : EnvVar → Bool) (p : Pod) : Bool :=
  p.volumes.any volMatch ||
    p.containers.any (fun c => c.envFrom.any fromMatch) ||
    p.containers.any (fun c => c.env.any varMatch)

/-- The full usage scan over the fetched pod list: a pod contributes one
entry exactly when its `isUsed` flag was set. -/
def usageScan (volMatch : Volume → Bool) (fromMatch : EnvFromSource → Bool)
    (varMatch : EnvVar → Bool) (pods : List Pod) : List UsageEntry :=
  pods.filterMap (fun p =>
    if scanUsed volMatch fromMatch varMatch p then
      some ⟨p.name, p.phase, scanDetails volMatch fromMatch varMatch p⟩
    else none)

/-- `SecretAPI.GetSecretUsage` over an already-fetched pod list. -/
def getSecretUsage (target : String) (pods : List Pod) : List UsageEntry :=
  usageScan (volumeMatchesSecret target) (envFromMatchesSecret target)
    (envVarMatchesSecret target) pods

/-- `ConfigMapAPI.GetConfigMapUsage` over an already-fetched pod list. -/
def getConfigMapUsage (target : String) (pods : List Pod) : List UsageEntry :=
  usageScan (volumeMatchesConfigMap target) (envFromMatchesConfigMap target)
    (envVarMatchesConfigMap target) pods

/-- A pod references the target secret through any of the three reference
points (the declarative reading of the spec sentence). -/
def referencesSecret (target : String) (p : Pod) : Bool :=
  scanUsed (volumeMatchesSecret target) (envFromMatchesSecret target)
    (envVarMatchesSecret target) p

/-- A pod references the target config map through any of the three
reference points. -/
def referencesConfigMap (target : String) (p : Pod) : Bool :=
  scanUsed (volumeMatchesConfigMap target) (envFromMatchesConfigMap target)
    (envVarMatchesConfigMap target) p

/-! ## HTTP responses and the delete handlers -/

/-- A handler response: HTTP status plus serialized body. -/
structure HttpResponse where
  status : Nat
  body : List (String × Json)

/-- `Handler.DeleteConfigMap`: any module error is surfaced as status 500
with the wrapped error text; success is 200. -/
def deleteConfigMapHandler (remote : Option RemoteErr) : HttpResponse :=
  match remote with
  | some e =>
      ⟨500, [("success", Json.bool false),
             ("error", Json.str (handleError e "delete configmap"))]⟩
  | none =>
      ⟨200, [("success", Json.bool true),
             ("message", Json.str "ConfigMap deleted successfully")]⟩

/-- The `error` field of a response body, as a string. -/
def responseErrorText (r : HttpResponse) : Option String :=
  match lookupField r.body "error" with
  | some (Json.str s) => some s
  | _ => none

/-- Substring containment: `pat` occurs inside `s`. -/
def strContains (s pat : String) : Prop :=
  ∃ pre suf : String, pre ++ (pat ++ suf) = s

/-! ## Router (cmd/server/main.go, setupRoutes) -/

/-- HTTP verb of a registered route. -/
inductive Verb where
  | GET
  | POST
  | PUT
  | DELETE
  deriving DecidableEq, Repr

/-- A registered route: verb, full path pattern, handler name. -/
structure Route where
  verb : Verb
  path : String
  handler : String
  deriving DecidableEq, Repr

/-- The full route table registered by `setupRoutes`, with the gin group
paths concatenated. -/
def routes : List Route :=
  [⟨Verb.GET, "/health", "health"⟩,
   ⟨Verb.GET, "/api/v1/namespaces", "namespaceHandler.ListNamespaces"⟩,
   ⟨Verb.GET, "/api/v1/namespaces/:name", "namespaceHandler.GetNamespace"⟩,
   ⟨Verb.GET, "/api/v1/namespaces/:name/metrics", "namespaceHandler.GetNamespaceMetrics"⟩,
   ⟨Verb.GET, "/api/v1/pods/namespaces/:namespace", "podHandler.ListPods"⟩,
   ⟨Verb.GET, "/api/v1/pods/namespaces/:namespace/:name", "podHandler.GetPod"⟩,
   ⟨Verb.GET, "/api/v1/pods/namespaces/:namespace/:name/metrics", "podHandler.GetPodMetrics"⟩,
   ⟨Verb.DELETE, "/api/v1/pods/namespaces/:namespace/:name", "podHandler.DeletePod"⟩,
   ⟨Verb.GET, "/api/v1/deployments/namespaces/:namespace", "deploymentHandler.ListDeployments"⟩,
   ⟨Verb.POST, "/api/v1/deployments/namespaces/:namespace", "deploymentHandler.CreateDeployment"⟩,
   ⟨Verb.GET, "/api/v1/deployments/namespaces/:namespace/:name", "deploymentHandler.GetDeployment"⟩,
   ⟨Verb.PUT, "/api/v1/deployments/namespaces/:namespace/:name", "deploymentHandler.UpdateDeployment"⟩,
   ⟨Verb.GET, "/api/v1/deployments/namespaces/:namespace/:name/status", "deploymentHandler.GetDeploymentStatus"⟩,
   ⟨Verb.DELETE, "/api/v1/deployments/namespaces/:namespace/:name", "deploymentHandler.DeleteDeployment"⟩,
   ⟨Verb.PUT, "/api/v1/deployments/namespaces/:namespace/:name/scale", "deploymentHandler.ScaleDeployment"⟩,
   ⟨Verb.GET, "/api/v1/services/namespaces/:namespace", "serviceHandler.ListServices"⟩,
   ⟨Verb.POST, "/api/v1/services/namespaces/:namespace", "serviceHandler.CreateService"⟩,
   ⟨Verb.GET, "/api/v1/services/namespaces/:namespace/:name", "serviceHandler.GetService"⟩,
   ⟨Verb.PUT, "/api/v1/services/namespaces/:namespace/:name", "serviceHandler.UpdateService"⟩,
   ⟨Verb.DELETE, "/api/v1/services/namespaces/:namespace/:name", "serviceHandler.DeleteService"⟩,
   ⟨Verb.GET, "/api/v1/services/namespaces/:namespace/:name/status", "serviceHandler.GetServiceStatus"⟩,
   ⟨Verb.GET, "/api/v1/configmaps/namespaces/:namespace", "configMapHandler.ListConfigMaps"⟩,
   ⟨Verb.POST, "/api/v1/configmaps/namespaces/:namespace", "configMapHandler.CreateConfigMap"⟩,
   ⟨Verb.GET, "/api/v1/configmaps/namespaces/:namespace/:name", "configMapHandler.GetConfigMap"⟩,
   ⟨Verb.PUT, "/api/v1/configmaps/namespaces/:namespace/:name", "configMapHandler.UpdateConfigMap"⟩,
   ⟨Verb.DELETE, "/api/v1/configmaps/namespaces/:namespace/:name", "configMapHandler.DeleteConfigMap"⟩,
   ⟨Verb.GET, "/api/v1/configmaps/namespaces/:namespace/:name/usage", "configMapHandler.GetConfigMapUsage"⟩,
   ⟨Verb.GET, "/api/v1/secrets/namespaces/:namespace", "secretHandler.ListSecrets"⟩,
   ⟨Verb.POST, "/api/v1/secrets/namespaces/:namespace", "secretHandler.CreateSecret"⟩,
   ⟨Verb.GET, "/api/v1/secrets/namespaces/:namespace/:name", "secretHandler.GetSecret"⟩,
   ⟨Verb.PUT, "/api/v1/secrets/namespaces/:namespace/:name", "secretHandler.UpdateSecret"⟩,
   ⟨Verb.DELETE, "/api/v1/secrets/namespaces/:namespace/:name", "secretHandler.DeleteSecret"⟩,
   ⟨Verb.GET, "/api/v1/namespaces/:namespace/ingresses", "ingressHandler.ListIngresses"⟩,
   ⟨Verb.POST, "/api/v1/namespaces/:namespace/ingresses", "ingressHandler.CreateIngress"⟩,
   ⟨Verb.GET, "/api/v1/namespaces/:namespace/ingresses/:name", "ingressHandler.GetIngress"⟩,
   ⟨Verb.PUT, "/api/v1/namespaces/:namespace/ingresses/:name", "ingressHandler.UpdateIngress"⟩,
   ⟨Verb.DELETE, "/api/v1/namespaces/:namespace/ingresses/:name", "ingressHandler.DeleteIngress"⟩,
   ⟨Verb.GET, "/api/v1/namespaces/:namespace/ingresses/:name/status", "ingressHandler.GetIngressStatus"⟩]

/-- Whether some route with the given verb and path is registered. -/
def hasRoute (v : Verb) (p : String) : Bool :=
  routes.any (fun r => decide (r.verb = v) && r.path == p)

/-- Whether a path ends with the given suffix (on the character lists). -/
def pathHasSuffix (s suffix : String) : Bool :=
  List.isSuffixOf suffix.data s.data

/-! ## Service model and status assembly (the service module and handler) -/

/-- A `corev1.ServicePort` as built by this facade (`TargetPort` always via
`intstr.FromInt`, so it is numeric). -/
structure ServicePort where
  name : String
  protocol : String
  port : Int
  targetPort : Int
  nodePort : Int
  deriving DecidableEq, Repr

/-- One entry of the `ports` array of a create / update request body. -/
structure ServicePortReq where
  name : String
  port : Int
  targetPort : Int
  nodePort : Int
  protocol : String
  deriving DecidableEq, Repr

/-- The port construction shared by `Handler.CreateService` and
`Handler.UpdateService`: protocol defaults to TCP, `NodePort` is set only
when positive. -/
def buildServicePort (p : ServicePortReq) : ServicePort :=
  { name := p.name
    protocol := if p.protocol == "" then "TCP" else p.protocol
    port := p.port
    targetPort := p.targetPort
    nodePort := if p.nodePort > 0 then p.nodePort else 0 }

/-- The service spec fields the facade touches. -/
structure ServiceSpec where
  serviceType : String
  ports : List ServicePort
  selector : Option (List (String × String))
  externalIPs : List String
  clusterIP : String
  sessionAffinity : String
  deriving DecidableEq, Repr

/-- A `corev1.Service`, restricted to the fields the facade touches. -/
structure Service where
  name : String
  ns : String
  labels : Option (List (String × String))
  spec : ServiceSpec
  lbIngress : List (String × String)
  deriving DecidableEq, Repr

/-- The JSON body of `POST .../services/...`. -/
structure ServiceCreateReq where
  name : String
  serviceType : String
  ports : List ServicePortReq
  selector : List (String × String)
  labels : Option (List (String × String))
  externalIPs : List String
  deriving DecidableEq, Repr

/-- The service object `Handler.CreateService` submits to the remote create.
Server-assigned fields (cluster IP, session affinity) are left at their
zero values; the remote stores the submitted spec fields unchanged. -/
def buildServiceFromCreateReq (ns : String) (req : ServiceCreateReq) : Service :=
  { name := req.name
    ns := ns
    labels := req.labels
    spec :=
      { serviceType := req.serviceType
        ports := req.ports.map buildServicePort
        selector := some req.selector
        externalIPs := req.externalIPs
        clusterIP := ""
        sessionAffinity := "" }
    lbIngress := [] }

/-- One endpoint address of an endpoints subset. -/
structure EndpointAddress where
  ip : String
  hostname : String
  nodeName : String
  deriving DecidableEq, Repr

/-- One subset of a `corev1.Endpoints` object. -/
structure EndpointSubset where
  addresses : List EndpointAddress
  deriving DecidableEq, Repr

/-- A `corev1.Endpoints` object. -/
structure Endpoints where
  subsets : List EndpointSubset
  deriving DecidableEq, Repr

/-- One entry of the `ports` array of the status report
(`getServicePorts`); `TargetPort.String()` prints the number. -/
structure PortReport where
  name : String
  protocol : String
  port : Int
  targetPort : String
  nodePort : Int
  deriving DecidableEq, Repr

/-- `getServicePorts`. -/
def getServicePorts (ports : List ServicePort) : List PortReport :=
  ports.map (fun p => ⟨p.name, p.protocol, p.port, toString p.targetPort, p.nodePort⟩)

/-- `getEndpointAddresses`: flatten every subset's address list. -/
def getEndpointAddresses (eps : Endpoints) : List EndpointAddress :=
  eps.subsets.flatMap (fun s => s.addresses)

/-- The status report assembled by `GetServiceStatus` from the service read
and the separate endpoints read. -/
structure ServiceStatusReport where
  serviceType : String
  clusterIP : String
  externalIPs : List String
  loadBalancer : List (String × String)
  ports : List PortReport
  endpoints : List EndpointAddress
  selector : Option (List (String × String))
  sessionAffinity : String
  deriving DecidableEq, Repr

/-- `GetServiceStatus`, given the results of its two remote reads. -/
def getServiceStatus (svc : Service) (eps : Endpoints) : ServiceStatusReport :=
  { serviceType := svc.spec.serviceType
    clusterIP := svc.spec.clusterIP
    externalIPs := svc.spec.externalIPs
    loadBalancer := if svc.spec.serviceType == "LoadBalancer" then svc.lbIngress else []
    ports := getServicePorts svc.spec.ports
    endpoints := getEndpointAddresses eps
    selector := svc.spec.selector
    sessionAffinity := svc.spec.sessionAffinity }

/-! ## Cluster client adapter (pkg/kubernetes, NewClient) and startup

Environment variables are modelled the way `os.Getenv` reports them: the
empty string means absent.  The effectful steps (clientset construction,
the `ServerVersion` liveness probe, kubeconfig loading) are passed in as
their results. -/

/-- The inputs of the token-based `NewClient`. -/
structure TokenClientInput where
  k8sHost : String
  k8sToken : String
  clientsetCreation : Except String Unit
  serverVersionProbe : Except String String
  deriving Repr

/-- The inputs of the kubeconfig-based `NewClient`. -/
structure KubeconfigClientInput where
  configLoad : Except String Unit
  clientsetCreation : Except String Unit
  serverVersionProbe : Except String String
  deriving Repr

/-- `Client.IsHealthy`: one `ServerVersion` liveness probe. -/
def clientIsHealthy (probe : Except String String) : Except String Unit :=
  match probe with
  | Except.error e => Except.error ("failed to connect to Kubernetes API: " ++ e)
  | Except.ok _ => Except.ok ()

/-- The token-based `NewClient`: require `K8S_HOST` and `K8S_TOKEN`, build
the clientset, then probe; the handle is returned only past the probe. -/
def newClientToken (inp : TokenClientInput) : Except String Unit :=
  if inp.k8sHost == "" then
    Except.error "K8S_HOST environment variable is required"
  else if inp.k8sToken == "" then
    Except.error "K8S_TOKEN environment variable is required"
  else
    match inp.clientsetCreation with
    | Except.error e => Except.error ("failed to create client: " ++ e)
    | Except.ok _ =>
        match clientIsHealthy inp.serverVersionProbe with
        | Except.error e => Except.error ("failed health check: " ++ e)
        | Except.ok _ => Except.ok ()

/-- The kubeconfig-based `NewClient`: load the configuration file, build
the clientset, then probe; the handle is returned only past the probe. -/
def newClientKubeconfig (inp : KubeconfigClientInput) : Except String Unit :=
  match inp.configLoad with
  | Except.error e => Except.error ("failed to get client config: " ++ e)
  | Except.ok _ =>
      match inp.clientsetCreation with
      | Except.error e => Except.error ("failed to create client: " ++ e)
      | Except.ok _ =>
          match clientIsHealthy inp.serverVersionProbe with
          | Except.error e => Except.error ("failed health check: " ++ e)
          | Except.ok _ => Except.ok ()

/-- What `main` reaches: either `log.Fatalf` before the HTTP server starts,
or the serving state. -/
inductive Startup where
  | fatal (msg : String)
  | serving
  deriving DecidableEq, Repr

/-- The startup sequence of `main`: configuration load, then client
construction; any error exits the process before the server is started. -/
def mainStartup (configLoad : Except String Unit)
    (clientNew : Except String Unit) : Startup :=
  match configLoad with
  | Except.error e => Startup.fatal ("Failed to load configuration: " ++ e)
  | Except.ok _ =>
      match clientNew with
      | Except.error e => Startup.fatal ("Failed to create Kubernetes client: " ++ e)
      | Except.ok _ => Startup.serving

/-! ## Request-body binding (gin ShouldBindJSON) and the create handlers

`ShouldBindJSON` fails when the body is not parseable JSON, when a field
has the wrong JSON type, or when a field tagged `binding:"required"` is
absent or has its zero value.  A missing / unparseable body is modelled as
`Option.none`; a parsed body is a `Json` value. -/

/-- Extract a field of a parsed JSON body (non-objects have no fields). -/
def jsonField (j : Json) (key : String) : Option Json :=
  match j with
  | Json.obj fields => lookupField fields key
  | _ => none

/-- Bind a `binding:"required"` string field: absent, non-string, or empty
(the string zero value) all fail validation. -/
def requiredString (j : Json) (key : String) : Except String String :=
  match jsonField j key with
  | some (Json.str s) =>
      if s == "" then Except.error ("Key: " ++ key ++ " is required") else Except.ok s
  | some _ => Except.error ("field " ++ key ++ " has the wrong type")
  | none => Except.error ("Key: " ++ key ++ " is required")

/-- Bind a `binding:"required"` int32 field: absent, non-numeric, or zero
(the int zero value) all fail validation. -/
def requiredInt (j : Json) (key : String) : Except String Int :=
  match jsonField j key with
  | some (Json.num n) =>
      if n = 0 then Except.error ("Key: " ++ key ++ " is required") else Except.ok n
  | some _ => Except.error ("field " ++ key ++ " has the wrong type")
  | none => Except.error ("Key: " ++ key ++ " is required")

/-- Convert a JSON object whose values must all be strings. -/
def strMapOfJson : List (String × Json) → Except String (List (String × String))
  | [] => Except.ok []
  | (k, Json.str v) :: rest =>
      match strMapOfJson rest with
      | Except.ok m => Except.ok ((k, v) :: m)
      | Except.error e => Except.error e
  | (k, _) :: _ => Except.error ("field " ++ k ++ " has the wrong type")

/-- Bind an optional `map[string]string` field: absent or null binds to the
nil map; present with a non-object or non-string value is a type error. -/
def optionalStrMap (j : Json) (key : String) :
    Except String (Option (List (String × String))) :=
  match jsonField j key with
  | none => Except.ok none
  | some Json.null => Except.ok none
  | some (Json.obj fields) =>
      match strMapOfJson fields with
      | Except.ok m => Except.ok (some m)
      | Except.error e => Except.error e
  | some _ => Except.error ("field " ++ key ++ " has the wrong type")

/-- The bound `POST .../secrets/...` body (name required). -/
structure SecretCreateReq where
  name : String
  secretType : Option String
  stringData : Option (List (String × String))
  labels : Option (List (String × String))
  annotations : Option (List (String × String))
  deriving DecidableEq, Repr

/-- `ShouldBindJSON` for the secret create request. -/
def bindSecretCreateReq (body : Option Json) : Except String SecretCreateReq :=
  match body with
  | none => Except.error "invalid JSON body"
  | some j =>
      match requiredString j "name" with
      | Except.error e => Except.error e
      | Except.ok name =>
          match optionalStrMap j "stringData" with
          | Except.error e => Except.error e
          | Except.ok sd =>
              match optionalStrMap j "labels" with
              | Except.error e => Except.error e
              | Except.ok l =>
                  match optionalStrMap j "annotations" with
                  | Except.error e => Except.error e
                  | Except.ok a =>
                      match jsonField j "type" with
                      | some (Json.str t) => Except.ok ⟨name, some t, sd, l, a⟩
                      | some _ => Except.error "field type has the wrong type"
                      | none => Except.ok ⟨name, none, sd, l, a⟩

/-- The bound `POST .../configmaps/...` body (name required). -/
structure ConfigMapCreateReq where
  name : String
  data : Option (List (String × String))
  binaryData : Option (List (String × String))
  labels : Option (List (String × String))
  annotations : Option (List (String × String))
  deriving DecidableEq, Repr

/-- `ShouldBindJSON` for the config map create request. -/
def bindConfigMapCreateReq (body : Option Json) : Except String ConfigMapCreateReq :=
  match body with
  | none => Except.error "invalid JSON body"
  | some j =>
      match requiredString j "name" with
      | Except.error e => Except.error e
      | Except.ok name =>
          match optionalStrMap j "data" with
          | Except.error e => Except.error e
          | Except.ok d =>
              match optionalStrMap j "binaryData" with
              | Except.error e => Except.error e
              | Except.ok b =>
                  match optionalStrMap j "labels" with
                  | Except.error e => Except.error e
                  | Except.ok l =>
                      match optionalStrMap j "annotations" with
                      | Except.error e => Except.error e
                      | Except.ok a => Except.ok ⟨name, d, b, l, a⟩

/-- The bound `POST .../deployments/...` body
(name, image and replicas required). -/
structure DeploymentCreateReq where
  name : String
  image : String
  replicas : Int
  deriving DecidableEq, Repr

/-- `ShouldBindJSON` for the deployment create request (restricted to its
required fields; the optional fields do not affect the claims below). -/
def bindDeploymentCreateReq (body : Option Json) : Except String DeploymentCreateReq :=
  match body with
  | none => Except.error "invalid JSON body"
  | some j =>
      match requiredString j "name" with
      | Except.error e => Except.error e
      | Except.ok name =>
          match requiredString j "image" with
          | Except.error e => Except.error e
          | Except.ok image =>
              match requiredInt j "replicas" with
              | Except.error e => Except.error e
              | Except.ok r => Except.ok ⟨name, image, r⟩

/-- The observable outcome of a create handler: HTTP status, the `error`
body field when there is one, and whether the remote API was called. -/
structure CreateOutcome where
  status : Nat
  errorText : Option String
  remoteCalled : Bool
  deriving DecidableEq, Repr

/-- `Handler.CreateSecret`: bind, then call the remote create. -/
def createSecretHandler (body : Option Json)
    (remote : Except RemoteErr Unit) : CreateOutcome :=
  match bindSecretCreateReq body with
  | Except.error e => ⟨400, some ("Invalid request format: " ++ e), false⟩
  | Except.ok _ =>
      match remote with
      | Except.error e => ⟨500, some (handleError e "create secret"), true⟩
      | Except.ok _ => ⟨201, none, true⟩

/-- `Handler.CreateConfigMap`: bind, then call the remote create. -/
def createConfigMapHandler (body : Option Json)
    (remote : Except RemoteErr Unit) : CreateOutcome :=
  match bindConfigMapCreateReq body with
  | Except.error e => ⟨400, some ("Invalid request format: " ++ e), false⟩
  | Except.ok _ =>
      match remote with
      | Except.error e => ⟨500, some (handleError e "create configmap"), true⟩
      | Except.ok _ => ⟨201, none, true⟩

/-- `Handler.CreateDeployment`: bind, then call the remote create. -/
def createDeploymentHandler (body : Option Json)
    (remote : Except RemoteErr Unit) : CreateOutcome :=
  match bindDeploymentCreateReq body with
  | Except.error e => ⟨400, some ("Invalid request format: " ++ e), false⟩
  | Except.ok _ =>
      match remote with
      | Except.error e => ⟨500, some (handleError e "create deployment"), true⟩
      | Except.ok _ => ⟨201, none, true⟩

/-! ## Deployment status (internal/api/deployment/deployment.go) -/

/-- The deployment fields `GetDeploymentStatus` reads.  `Spec.Replicas` is
a pointer (`*int32`), hence optional. -/
structure Deployment where
  name : String
  specReplicas : Option Int
  statusReplicas : Int
  updatedReplicas : Int
  readyReplicas : Int
  availableReplicas : Int
  strategyType : String
  creationTime : Nat
  deriving DecidableEq, Repr

/-- The replica-count block of the status report. -/
structure ReplicaCounts where
  desired : Int
  current : Int
  updated : Int
  ready : Int
  available : Int
  deriving DecidableEq, Repr

/-- The outcome of an operation that may also crash on a nil dereference. -/
inductive ExecResult (α : Type) where
  | ok (a : α)
  | err (e : String)
  | nilDeref
  deriving DecidableEq, Repr

/-- `GetDeploymentStatus`: after a successful fetch the code evaluates
`*deployment.Spec.Replicas` with no nil check; a nil pointer is the
panic branch. -/
def getDeploymentStatus (remote : Except RemoteErr Deployment) :
    ExecResult ReplicaCounts :=
  match remote with
  | Except.error e => ExecResult.err (handleError e "get deployment")
  | Except.ok d =>
      match d.specReplicas with
      | none => ExecResult.nilDeref
      | some r =>
          ExecResult.ok
            { desired := r
              current := d.statusReplicas
              updated := d.updatedReplicas
              ready := d.readyReplicas
              available := d.availableReplicas }

/-! ## Namespace metrics (internal/api/namespace/namespace.go) -/

/-- Go map increment `m[k]++`: a missing key is treated as 0 and the entry
is created. -/
def bumpCount : List (String × Int) → String → List (String × Int)
  | [], k => [(k, 1)]
  | (k', v) :: rest, k =>
      if k' == k then (k', v + 1) :: rest else (k', v) :: bumpCount rest k

/-- Association-list lookup for the counters map. -/
def lookupCount : List (String × Int) → String → Option Int
  | [], _ => none
  | (k', v) :: rest, k => if k' == k then some v else lookupCount rest k

/-- The status map literal the metrics are seeded with. -/
def seedStatusCounters : List (String × Int) :=
  [("running", 0), ("pending", 0), ("failed", 0), ("succeeded", 0)]

/-- The metrics report of `GetNamespaceMetrics`. -/
structure NamespaceMetrics where
  podCount : Nat
  statusCounters : List (String × Int)
  deriving DecidableEq, Repr

/-- `GetNamespaceMetrics` over an already-fetched pod list: seed the four
lowercase counters, then increment `status[string(pod.Status.Phase)]` for
every pod. -/
def getNamespaceMetrics (pods : List Pod) : NamespaceMetrics :=
  { podCount := pods.length
    statusCounters := pods.foldl (fun m p => bumpCount m p.phase) seedStatusCounters }

/-- The well-formed (capitalized) pod phase strings of the remote API. -/
def capitalizedPhases : List String :=
  ["Pending", "Running", "Succeeded", "Failed", "Unknown"]

/-- The counter value for a key, with a missing key read as 0. -/
def countOf (m : List (String × Int)) (k : String) : Int :=
  (lookupCount m k).getD 0

/-! ## Named usage projections and sample objects -/

/-- The per-pod evidence recorded by the secret usage scan. -/
def secretUsageDetails (target : String) (p : Pod) : UsageDetails :=
  scanDetails (volumeMatchesSecret target) (envFromMatchesSecret target)
    (envVarMatchesSecret target) p

/-- The per-pod evidence recorded by the config map usage scan. -/
def configMapUsageDetails (target : String) (p : Pod) : UsageDetails :=
  scanDetails (volumeMatchesConfigMap target) (envFromMatchesConfigMap target)
    (envVarMatchesConfigMap target) p

/-- The usage-report entry of a pod for the secret scan. -/
def secretUsageEntry (target : String) (p : Pod) : UsageEntry :=
  ⟨p.name, p.phase, secretUsageDetails target p⟩

/-- The usage-report entry of a pod for the config map scan. -/
def configMapUsageEntry (target : String) (p : Pod) : UsageEntry :=
  ⟨p.name, p.phase, configMapUsageDetails target p⟩

/-- A concrete remote config map whose values are populated. -/
def sampleConfigMap : ConfigMap :=
  { name := "app-config"
    ns := "default"
    data := some [("key", "value")]
    binaryData := none
    labels := none
    annotations := none
    creationTime := 0 }

/-- A concrete stored secret whose value payload is populated. -/
def sampleStoredSecret : Secret :=
  { name := "db-credentials"
    ns := "default"
    secretType := "Opaque"
    data := some [("password", "hunter2")]
    stringData := none
    labels := some [("app", "db")]
    annotations := none
    creationTime := 0 }

/-- A concrete pod that references the secret `db-credentials` through all
three reference points. -/
def samplePodUsing : Pod :=
  { name := "api-pod"
    phase := "Running"
    volumes := [⟨"creds-vol", some ⟨"db-credentials"⟩, none⟩]
    containers :=
      [{ name := "api"
         envFrom := [⟨some "db-credentials", none⟩]
         env := [⟨"DB_PASSWORD", some ⟨some "db-credentials", none⟩⟩] }] }

/-- A concrete pod that references nothing. -/
def samplePodIdle : Pod :=
  { name := "idle-pod"
    phase := "Pending"
    volumes := []
    containers := [{ name := "idle", envFrom := [], env := [] }] }

/-! # Theorems -/

/-! ## General helper lemmas -/

theorem strAppend_assoc (a b c : String) : a ++ b ++ c = a ++ (b ++ c) := by
  apply congrArg String.mk
  exact List.append_assoc a.data b.data c.data

theorem usageScan_cons (vm : Volume → Bool) (fm : EnvFromSource → Bool)
    (xm : EnvVar → Bool) (p : Pod) (pods : List Pod) :
    usageScan vm fm xm (p :: pods) =
      if scanUsed vm fm xm p then
        ⟨p.name, p.phase, scanDetails vm fm xm p⟩ :: usageScan vm fm xm pods
      else usageScan vm fm xm pods := by
  simp only [usageScan, List.filterMap_cons]
  split <;> simp_all

theorem podName_mem_of_mem_usageScan (vm : Volume → Bool)
    (fm : EnvFromSource → Bool) (xm : EnvVar → Bool) (pods : List Pod)
    (e : UsageEntry) (h : e ∈ usageScan vm fm xm pods) :
    e.podName ∈ pods.map Pod.name := by
  simp only [usageScan, List.mem_filterMap] at h
  obtain ⟨p, hp, hsome⟩ := h
  by_cases hc : scanUsed vm fm xm p
  · simp only [hc, if_true, Option.some.injEq] at hsome
    subst hsome
    exact List.mem_map_of_mem Pod.name hp
  · simp [hc] at hsome

theorem usageScan_filter_name (vm : Volume → Bool) (fm : EnvFromSource → Bool)
    (xm : EnvVar → Bool) :
    ∀ (pods : List Pod), (pods.map Pod.name).Nodup →
      ∀ p ∈ pods,
        (usageScan vm fm xm pods).filter (fun e => e.podName == p.name) =
          if scanUsed vm fm xm p then
            [⟨p.name, p.phase, scanDetails vm fm xm p⟩]
          else [] := by
  intro pods
  induction pods with
  | nil => intro _ p hp; cases hp
  | cons q rest ih =>
    intro hnd p hp
    have hnd' : q.name ∉ rest.map Pod.name ∧ (rest.map Pod.name).Nodup := by
      rw [List.map_cons, List.nodup_cons] at hnd
      exact hnd
    have hqnot : q.name ∉ rest.map Pod.name := hnd'.1
    have htail : ∀ e ∈ usageScan vm fm xm rest, (e.podName == q.name) = false := by
      intro e he
      have := podName_mem_of_mem_usageScan vm fm xm rest e he
      simp only [beq_eq_false_iff_ne, ne_eq]
      intro hEq
      exact hqnot (hEq ▸ this)
    rcases List.mem_cons.mp hp with rfl | hmem
    · rw [usageScan_cons]
      by_cases hc : scanUsed vm fm xm p
      · simp only [hc, if_true]
        rw [List.filter_cons_of_pos (by simp)]
        rw [List.filter_eq_nil_iff.mpr (by intro e he; simpa using htail e he)]
      · simp only [hc, if_false, Bool.false_eq_true]
        rw [List.filter_eq_nil_iff.mpr (by intro e he; simpa using htail e he)]
    · have hqp : (q.name == p.name) = false := by
        simp only [beq_eq_false_iff_ne, ne_eq]
        intro hEq
        exact hqnot (hEq ▸ List.mem_map_of_mem Pod.name hmem)
      rw [usageScan_cons]
      by_cases hc : scanUsed vm fm xm q
      · simp only [hc, if_true]
        rw [List.filter_cons_of_neg (by simpa using hqp)]
        exact ih hnd'.2 p hmem
      · simp only [hc, if_false, Bool.false_eq_true]
        exact ih hnd'.2 p hmem

theorem mem_scanDetails_volumeMounts (vm : Volume → Bool)
    (fm : EnvFromSource → Bool) (xm : EnvVar → Bool) (p : Pod) (v : String) :
    v ∈ (scanDetails vm fm xm p).volumeMounts ↔
      ∃ vol, vol ∈ p.volumes ∧ vm vol = true ∧ vol.name = v := by
  simp only [scanDetails, List.mem_map, List.mem_filter]
  constructor
  · rintro ⟨vol, ⟨hmem, hvm⟩, rfl⟩
    exact ⟨vol, hmem, hvm, rfl⟩
  · rintro ⟨vol, hmem, hvm, rfl⟩
    exact ⟨vol, ⟨hmem, hvm⟩, rfl⟩

theorem mem_scanDetails_envFrom (vm : Volume → Bool)
    (fm : EnvFromSource → Bool) (xm : EnvVar → Bool) (p : Pod) (c : String) :
    c ∈ (scanDetails vm fm xm p).envFrom ↔
      ∃ cont, cont ∈ p.containers ∧ cont.name = c ∧
        ∃ e, e ∈ cont.envFrom ∧ fm e = true := by
  simp only [scanDetails, List.mem_flatMap, List.mem_map, List.mem_filter]
  constructor
  · rintro ⟨cont, hmem, ⟨e, ⟨he, hfm⟩, rfl⟩⟩
    exact ⟨cont, hmem, rfl, e, he, hfm⟩
  · rintro ⟨cont, hmem, rfl, e, he, hfm⟩
    exact ⟨cont, hmem, e, ⟨he, hfm⟩, rfl⟩

theorem mem_scanDetails_envVars (vm : Volume → Bool)
    (fm : EnvFromSource → Bool) (xm : EnvVar → Bool) (p : Pod) (s : String) :
    s ∈ (scanDetails vm fm xm p).envVars ↔
      ∃ cont, cont ∈ p.containers ∧ ∃ e, e ∈ cont.env ∧ xm e = true ∧
        s = cont.name ++ ":" ++ e.name := by
  simp only [scanDetails, List.mem_flatMap, List.mem_map, List.mem_filter]
  constructor
  · rintro ⟨cont, hmem, ⟨e, ⟨he, hxm⟩, rfl⟩⟩
    exact ⟨cont, hmem, e, he, hxm, rfl⟩
  · rintro ⟨cont, hmem, e, he, hxm, rfl⟩
    exact ⟨cont, hmem, e, ⟨he, hxm⟩, rfl⟩

/-! ## C1: value payloads in list/get responses -/

/-- C1 counterexample: the config-object get handler serializes the full
value payload.  For a concrete remote config map with populated data, the
response entry carries a `data` binding holding the populated map (and a
`binaryData` binding), so the serialized output is not value-payload
free. -/
theorem c1_counterexample :
    valuePayloadFree (serializeConfigMapGetEntry sampleConfigMap) = false ∧
    lookupField (serializeConfigMapGetEntry sampleConfigMap) "data" =
      some (Json.obj [("key", Json.str "value")]) := by
  constructor <;> rfl

/-- C1 amended: the secret module strips value payloads before any object
leaves it, and the secret list/get handler projections and the config-map
list projection carry no value-payload binding; the config-map get
projection, however, always carries `data` and `binaryData` bindings that
serialize the remote object's maps. -/
theorem c1_redaction_amended :
    (∀ (items : List Secret) (s : Secret),
      s ∈ ((listSecretsModule (Except.ok items)).toOption.getD []) →
        s.data = none ∧ s.stringData = none) ∧
    (∀ s : Secret,
      getSecretModule (Except.ok s) = Except.ok (redactSecret s) ∧
        (redactSecret s).data = none ∧ (redactSecret s).stringData = none) ∧
    (∀ s : Secret,
      valuePayloadFree (serializeSecretListEntry s) = true ∧
        valuePayloadFree (serializeSecretGetEntry s) = true) ∧
    (∀ cm : ConfigMap, valuePayloadFree (serializeConfigMapListEntry cm) = true) ∧
    (∀ cm : ConfigMap,
      lookupField (serializeConfigMapGetEntry cm) "data" =
          some (jsonOfOptMap cm.data) ∧
        lookupField (serializeConfigMapGetEntry cm) "binaryData" =
          some (jsonOfOptMap cm.binaryData)) := by
  refine ⟨?_, ?_, ?_, ?_, ?_⟩
  · intro items s hs
    simp only [listSecretsModule, Except.toOption, Option.getD, List.mem_map] at hs
    obtain ⟨t, _, rfl⟩ := hs
    exact ⟨rfl, rfl⟩
  · intro s
    exact ⟨rfl, rfl, rfl⟩
  · intro s
    exact ⟨rfl, rfl⟩
  · intro cm
    rfl
  · intro cm
    exact ⟨rfl, rfl⟩

/-- C1 witness for the amended theorem: instantiate the module-level
guarantee at a secret whose remote copy has populated values. -/
theorem c1_redaction_witness :
    (redactSecret sampleStoredSecret).data = none ∧
      (redactSecret sampleStoredSecret).stringData = none :=
  c1_redaction_amended.1 [sampleStoredSecret] (redactSecret sampleStoredSecret)
    (by simp [listSecretsModule, Except.toOption])

/-! ## C2: the empty update body -/

/-- C2: the secret update handler performs its read-modify-write on the
redacted object returned by `GetSecret`, so an update whose body is the
empty JSON object submits the secret with `data` and `stringData` nil: the
stored value payload is cleared rather than preserved.  For a concrete
stored secret the divergence is explicit, while the config-map update
handler really does resubmit the stored object unchanged. -/
theorem c2_empty_update_secret_clears_data :
    (∀ stored : Secret,
      (updateSecretSubmitted stored emptySecretUpdateReq).data = none ∧
        (updateSecretSubmitted stored emptySecretUpdateReq).stringData = none ∧
        (updateSecretSubmitted stored emptySecretUpdateReq).labels = stored.labels ∧
        (updateSecretSubmitted stored emptySecretUpdateReq).annotations =
          stored.annotations) ∧
    sampleStoredSecret.data = some [("password", "hunter2")] ∧
    (updateSecretSubmitted sampleStoredSecret emptySecretUpdateReq).data = none ∧
    updateSecretSubmitted sampleStoredSecret emptySecretUpdateReq ≠
      sampleStoredSecret ∧
    (∀ stored : ConfigMap,
      updateConfigMapSubmitted stored emptyConfigMapUpdateReq = stored) := by
  refine ⟨?_, rfl, rfl, by decide, ?_⟩
  · intro stored
    exact ⟨rfl, rfl, rfl, rfl⟩
  · intro stored
    rfl

/-! ## C3: completeness and exactness of the usage lookup -/

/-- C3: for a fixed pod list with distinct pod names, a pod referencing the
target through any of volume source, bulk env-import or per-variable
indirect reference contributes exactly one entry to the usage report, whose
evidence record holds every matching reference kind (one volume-mount name
per matching volume, one container name per matching bulk import, one
container:variable pair per matching indirect reference); a pod with no
such reference contributes no entry.  This holds for the secret scan and
the config-map scan alike. -/
theorem c3_usage_lookup_complete :
    ∀ (target : String) (pods : List Pod), (pods.map Pod.name).Nodup →
      ∀ p ∈ pods,
        ((getSecretUsage target pods).filter (fun e => e.podName == p.name) =
          if referencesSecret target p then [secretUsageEntry target p] else []) ∧
        ((getConfigMapUsage target pods).filter (fun e => e.podName == p.name) =
          if referencesConfigMap target p then [configMapUsageEntry target p] else []) ∧
        (∀ v, v ∈ (secretUsageDetails target p).volumeMounts ↔
          ∃ vol, vol ∈ p.volumes ∧ volumeMatchesSecret target vol = true ∧
            vol.name = v) ∧
        (∀ c, c ∈ (secretUsageDetails target p).envFrom ↔
          ∃ cont, cont ∈ p.containers ∧ cont.name = c ∧
            ∃ e, e ∈ cont.envFrom ∧ envFromMatchesSecret target e = true) ∧
        (∀ s, s ∈ (secretUsageDetails target p).envVars ↔
          ∃ cont, cont ∈ p.containers ∧ ∃ e, e ∈ cont.env ∧
            envVarMatchesSecret target e = true ∧
            s = cont.name ++ ":" ++ e.name) ∧
        (∀ v, v ∈ (configMapUsageDetails target p).volumeMounts ↔
          ∃ vol, vol ∈ p.volumes ∧ volumeMatchesConfigMap target vol = true ∧
            vol.name = v) ∧
        (∀ c, c ∈ (configMapUsageDetails target p).envFrom ↔
          ∃ cont, cont ∈ p.containers ∧ cont.name = c ∧
            ∃ e, e ∈ cont.envFrom ∧ envFromMatchesConfigMap target e = true) ∧
        (∀ s, s ∈ (configMapUsageDetails target p).envVars ↔
          ∃ cont, cont ∈ p.containers ∧ ∃ e, e ∈ cont.env ∧
            envVarMatchesConfigMap target e = true ∧
            s = cont.name ++ ":" ++ e.name) := by
  intro target pods hnd p hp
  refine ⟨?_, ?_, ?_, ?_, ?_, ?_, ?_, ?_⟩
  · exact usageScan_filter_name _ _ _ pods hnd p hp
  · exact usageScan_filter_name _ _ _ pods hnd p hp
  · exact fun v => mem_scanDetails_volumeMounts _ _ _ p v
  · exact fun c => mem_scanDetails_envFrom _ _ _ p c
  · exact fun s => mem_scanDetails_envVars _ _ _ p s
  · exact fun v => mem_scanDetails_volumeMounts _ _ _ p v
  · exact fun c => mem_scanDetails_envFrom _ _ _ p c
  · exact fun s => mem_scanDetails_envVars _ _ _ p s

/-- C3 witness: over a concrete two-pod list, the referencing pod appears
exactly once in the secret usage report and the idle pod not at all. -/
theorem c3_usage_lookup_witness :
    ((getSecretUsage "db-credentials" [samplePodUsing, samplePodIdle]).filter
        (fun e => e.podName == samplePodUsing.name) =
      if referencesSecret "db-credentials" samplePodUsing then
        [secretUsageEntry "db-credentials" samplePodUsing]
      else []) ∧
    ((getSecretUsage "db-credentials" [samplePodUsing, samplePodIdle]).filter
        (fun e => e.podName == samplePodIdle.name) =
      if referencesSecret "db-credentials" samplePodIdle then
        [secretUsageEntry "db-credentials" samplePodIdle]
      else []) :=
  ⟨(c3_usage_lookup_complete "db-credentials" [samplePodUsing, samplePodIdle]
      (by decide) samplePodUsing (by simp)).1,
   (c3_usage_lookup_complete "db-credentials" [samplePodUsing, samplePodIdle]
      (by decide) samplePodIdle (by simp)).1⟩

/-! ## C4: deleting a missing resource -/

/-- C4: deleting a config map that does not exist re-wraps the remote
structured NotFound error with the local operation name and surfaces it as
HTTP 500 (never 404); the response's error text contains the remote
not-found reason text. -/
theorem c4_delete_missing_is_500 :
    ∀ n : String,
      (deleteConfigMapHandler (some (configMapNotFoundErr n))).status = 500 ∧
      (deleteConfigMapHandler (some (configMapNotFoundErr n))).status ≠ 404 ∧
      responseErrorText (deleteConfigMapHandler (some (configMapNotFoundErr n))) =
        some (handleError (configMapNotFoundErr n) "delete configmap") ∧
      strContains (handleError (configMapNotFoundErr n) "delete configmap")
        "not found" ∧
      strContains (handleError (configMapNotFoundErr n) "delete configmap")
        "delete configmap" := by
  intro n
  refine ⟨rfl, by simp [deleteConfigMapHandler], rfl, ?_, ?_⟩
  · refine ⟨"delete configmap failed: configmaps \x22" ++ n ++ "\x22 ",
      " (Code: 404, Reason: NotFound)", ?_⟩
    simp only [strAppend_assoc, handleError, configMapNotFoundErr]
    rfl
  · exact ⟨"", " failed: configmaps \x22" ++ n ++
      "\x22 not found (Code: 404, Reason: NotFound)", by
        simp only [strAppend_assoc, handleError, configMapNotFoundErr]
        rfl⟩

/-! ## C5: the route table -/

/-- C5 counterexample: the router registers no usage route for secrets and
no keys route for either secrets or config maps, although the secret
handler has methods for both sub-resources. -/
theorem c5_counterexample :
    hasRoute Verb.GET "/api/v1/secrets/namespaces/:namespace/:name/usage" = false ∧
    hasRoute Verb.GET "/api/v1/secrets/namespaces/:namespace/:name/keys" = false ∧
    hasRoute Verb.GET "/api/v1/configmaps/namespaces/:namespace/:name/keys" = false := by
  refine ⟨?_, ?_, ?_⟩ <;> rfl

/-- C5 amended: the router maps list/create under each kind's namespace
collection and get/update/delete under a named member (read-only plus
delete for pods, read-only for namespaces), with sub-resource routes for
metrics (namespaces, pods), status (deployments, services, ingresses),
scale (deployments) and usage (config maps only); no keys route is
registered for any kind, and neither a usage nor a keys route is
registered for secrets. -/
theorem c5_route_table :
    ([(Verb.GET, "/api/v1/namespaces"),
      (Verb.GET, "/api/v1/namespaces/:name"),
      (Verb.GET, "/api/v1/namespaces/:name/metrics"),
      (Verb.GET, "/api/v1/pods/namespaces/:namespace"),
      (Verb.GET, "/api/v1/pods/namespaces/:namespace/:name"),
      (Verb.GET, "/api/v1/pods/namespaces/:namespace/:name/metrics"),
      (Verb.DELETE, "/api/v1/pods/namespaces/:namespace/:name"),
      (Verb.GET, "/api/v1/deployments/namespaces/:namespace"),
      (Verb.POST, "/api/v1/deployments/namespaces/:namespace"),
      (Verb.GET, "/api/v1/deployments/namespaces/:namespace/:name"),
      (Verb.PUT, "/api/v1/deployments/namespaces/:namespace/:name"),
      (Verb.GET, "/api/v1/deployments/namespaces/:namespace/:name/status"),
      (Verb.DELETE, "/api/v1/deployments/namespaces/:namespace/:name"),
      (Verb.PUT, "/api/v1/deployments/namespaces/:namespace/:name/scale"),
      (Verb.GET, "/api/v1/services/namespaces/:namespace"),
      (Verb.POST, "/api/v1/services/namespaces/:namespace"),
      (Verb.GET, "/api/v1/services/namespaces/:namespace/:name"),
      (Verb.PUT, "/api/v1/services/namespaces/:namespace/:name"),
      (Verb.DELETE, "/api/v1/services/namespaces/:namespace/:name"),
      (Verb.GET, "/api/v1/services/namespaces/:namespace/:name/status"),
      (Verb.GET, "/api/v1/configmaps/namespaces/:namespace"),
      (Verb.POST, "/api/v1/configmaps/namespaces/:namespace"),
      (Verb.GET, "/api/v1/configmaps/namespaces/:namespace/:name"),
      (Verb.PUT, "/api/v1/configmaps/namespaces/:namespace/:name"),
      (Verb.DELETE, "/api/v1/configmaps/namespaces/:namespace/:name"),
      (Verb.GET, "/api/v1/configmaps/namespaces/:namespace/:name/usage"),
      (Verb.GET, "/api/v1/secrets/namespaces/:namespace"),
      (Verb.POST, "/api/v1/secrets/namespaces/:namespace"),
      (Verb.GET, "/api/v1/secrets/namespaces/:namespace/:name"),
      (Verb.PUT, "/api/v1/secrets/namespaces/:namespace/:name"),
      (Verb.DELETE, "/api/v1/secrets/namespaces/:namespace/:name"),
      (Verb.GET, "/api/v1/namespaces/:namespace/ingresses"),
      (Verb.POST, "/api/v1/namespaces/:namespace/ingresses"),
      (Verb.GET, "/api/v1/namespaces/:namespace/ingresses/:name"),
      (Verb.PUT, "/api/v1/namespaces/:namespace/ingresses/:name"),
      (Verb.DELETE, "/api/v1/namespaces/:namespace/ingresses/:name"),
      (Verb.GET, "/api/v1/namespaces/:namespace/ingresses/:name/status")
     ].all (fun q => hasRoute q.1 q.2)) = true ∧
    (routes.all (fun r =>
      !(pathHasSuffix r.path "/keys") &&
        !(r.path == "/api/v1/secrets/namespaces/:namespace/:name/usage"))) = true := by
  refine ⟨?_, ?_⟩ <;> rfl

/-! ## C6: create a service, then read its status -/

/-- C6: after creating a service from a request with one port mapping and a
two-entry selector, the status endpoint reports exactly that port mapping
(protocol defaulted to TCP, node port only when positive) and, when the
separately fetched endpoints object has no subsets, an empty endpoint
address list; the stored selector is reported unchanged. -/
theorem c6_service_create_status :
    ∀ (ns : String) (req : ServiceCreateReq) (p : ServicePortReq)
      (s1 s2 : String × String) (eps : Endpoints),
      req.ports = [p] →
      req.selector = [s1, s2] →
      eps.subsets = [] →
      (getServiceStatus (buildServiceFromCreateReq ns req) eps).ports =
        [⟨p.name, if p.protocol == "" then "TCP" else p.protocol, p.port,
          toString p.targetPort, if p.nodePort > 0 then p.nodePort else 0⟩] ∧
      (getServiceStatus (buildServiceFromCreateReq ns req) eps).endpoints = [] ∧
      (getServiceStatus (buildServiceFromCreateReq ns req) eps).selector =
        some [s1, s2] := by
  intro ns req p s1 s2 eps hports hsel heps
  refine ⟨?_, ?_, ?_⟩
  · simp [getServiceStatus, buildServiceFromCreateReq, getServicePorts,
      buildServicePort, hports]
  · simp [getServiceStatus, getEndpointAddresses, heps]
  · simp [getServiceStatus, buildServiceFromCreateReq, hsel]

/-- C6 witness: one concrete request with a single port mapping and a
two-entry selector, against an endpoints object with no subsets. -/
theorem c6_service_create_status_witness :
    (getServiceStatus
        (buildServiceFromCreateReq "default"
          ⟨"web", "ClusterIP", [⟨"http", 80, 8080, 0, ""⟩],
            [("app", "web"), ("tier", "frontend")], none, []⟩)
        ⟨[]⟩).ports =
      [⟨"http", "TCP", 80, "8080", 0⟩] ∧
    (getServiceStatus
        (buildServiceFromCreateReq "default"
          ⟨"web", "ClusterIP", [⟨"http", 80, 8080, 0, ""⟩],
            [("app", "web"), ("tier", "frontend")], none, []⟩)
        ⟨[]⟩).endpoints = [] ∧
    (getServiceStatus
        (buildServiceFromCreateReq "default"
          ⟨"web", "ClusterIP", [⟨"http", 80, 8080, 0, ""⟩],
            [("app", "web"), ("tier", "frontend")], none, []⟩)
        ⟨[]⟩).selector = some [("app", "web"), ("tier", "frontend")] :=
  c6_service_create_status "default"
    ⟨"web", "ClusterIP", [⟨"http", 80, 8080, 0, ""⟩],
      [("app", "web"), ("tier", "frontend")], none, []⟩
    ⟨"http", 80, 8080, 0, ""⟩ ("app", "web") ("tier", "frontend") ⟨[]⟩
    rfl rfl rfl

/-! ## C7: client construction fails fast -/

/-- C7: with a missing host or bearer token, a failing kubeconfig load, or
a failing liveness probe, `NewClient` (either variant) returns an error; a
handle is returned only when the probe succeeded; and `main` exits fatally
before starting the HTTP server whenever configuration load or client
construction errors. -/
theorem c7_client_fail_fast :
    (∀ inp : TokenClientInput, inp.k8sHost = "" →
      newClientToken inp = Except.error "K8S_HOST environment variable is required") ∧
    (∀ inp : TokenClientInput, inp.k8sHost ≠ "" → inp.k8sToken = "" →
      newClientToken inp = Except.error "K8S_TOKEN environment variable is required") ∧
    (∀ (inp : TokenClientInput) (e : String),
      inp.serverVersionProbe = Except.error e → newClientToken inp ≠ Except.ok ()) ∧
    (∀ (inp : KubeconfigClientInput) (e : String), inp.configLoad = Except.error e →
      newClientKubeconfig inp = Except.error ("failed to get client config: " ++ e)) ∧
    (∀ (inp : KubeconfigClientInput) (e : String),
      inp.serverVersionProbe = Except.error e →
        newClientKubeconfig inp ≠ Except.ok ()) ∧
    (∀ inp : TokenClientInput, newClientToken inp = Except.ok () →
      ∃ v, inp.serverVersionProbe = Except.ok v) ∧
    (∀ inp : KubeconfigClientInput, newClientKubeconfig inp = Except.ok () →
      ∃ v, inp.serverVersionProbe = Except.ok v) ∧
    (∀ (e : String) (client : Except String Unit),
      mainStartup (Except.error e) client =
        Startup.fatal ("Failed to load configuration: " ++ e)) ∧
    (∀ (cfg : Except String Unit) (e : String),
      mainStartup cfg (Except.error e) ≠ Startup.serving) := by
  refine ⟨?_, ?_, ?_, ?_, ?_, ?_, ?_, ?_, ?_⟩
  · intro inp h
    simp [newClientToken, h]
  · intro inp h1 h2
    simp [newClientToken, h1, h2]
  · intro inp e hprobe
    simp only [newClientToken, clientIsHealthy, hprobe]
    split
    · simp
    · split
      · simp
      · split
        · simp
        · simp
  · intro inp e h
    simp [newClientKubeconfig, h]
  · intro inp e hprobe
    simp only [newClientKubeconfig, clientIsHealthy, hprobe]
    split
    · simp
    · split
      · simp
      · simp
  · intro inp h
    cases hp : inp.serverVersionProbe with
    | ok v => exact ⟨v, rfl⟩
    | error e =>
        exfalso
        simp only [newClientToken, clientIsHealthy, hp] at h
        split at h
        · cases h
        · split at h
          · cases h
          · split at h
            · cases h
            · cases h
  · intro inp h
    cases hp : inp.serverVersionProbe with
    | ok v => exact ⟨v, rfl⟩
    | error e =>
        exfalso
        simp only [newClientKubeconfig, clientIsHealthy, hp] at h
        split at h
        · cases h
        · split at h
          · cases h
          · cases h
  · intro e client
    rfl
  · intro cfg e
    cases cfg with
    | error e2 => simp [mainStartup]
    | ok _ => simp [mainStartup]

/-- C7 witness: one concrete instantiation of every hypothesis-bearing
conjunct. -/
theorem c7_client_fail_fast_witness :
    (newClientToken ⟨"", "tok", Except.ok (), Except.ok "v1.28"⟩ =
      Except.error "K8S_HOST environment variable is required") ∧
    (newClientToken ⟨"https://host:6443", "", Except.ok (), Except.ok "v1.28"⟩ =
      Except.error "K8S_TOKEN environment variable is required") ∧
    (newClientToken ⟨"https://host:6443", "tok", Except.ok (),
        Except.error "connection refused"⟩ ≠ Except.ok ()) ∧
    (newClientKubeconfig ⟨Except.error "no such file", Except.ok (),
        Except.ok "v1.28"⟩ =
      Except.error ("failed to get client config: " ++ "no such file")) ∧
    (newClientKubeconfig ⟨Except.ok (), Except.ok (),
        Except.error "connection refused"⟩ ≠ Except.ok ()) ∧
    (∃ v, (TokenClientInput.mk "https://host:6443" "tok" (Except.ok ())
        (Except.ok "v1.28")).serverVersionProbe = Except.ok v) ∧
    (∃ v, (KubeconfigClientInput.mk (Except.ok ()) (Except.ok ())
        (Except.ok "v1.28")).serverVersionProbe = Except.ok v) ∧
    (mainStartup (Except.error "bad .env") (Except.ok ()) =
      Startup.fatal ("Failed to load configuration: " ++ "bad .env")) ∧
    (mainStartup (Except.ok ()) (Except.error "failed health check") ≠
      Startup.serving) :=
  ⟨c7_client_fail_fast.1 ⟨"", "tok", Except.ok (), Except.ok "v1.28"⟩ rfl,
   c7_client_fail_fast.2.1 ⟨"https://host:6443", "", Except.ok (), Except.ok "v1.28"⟩
     (by decide) rfl,
   c7_client_fail_fast.2.2.1 ⟨"https://host:6443", "tok", Except.ok (),
     Except.error "connection refused"⟩ "connection refused" rfl,
   c7_client_fail_fast.2.2.2.1 ⟨Except.error "no such file", Except.ok (),
     Except.ok "v1.28"⟩ "no such file" rfl,
   c7_client_fail_fast.2.2.2.2.1 ⟨Except.ok (), Except.ok (),
     Except.error "connection refused"⟩ "connection refused" rfl,
   c7_client_fail_fast.2.2.2.2.2.1 ⟨"https://host:6443", "tok", Except.ok (),
     Except.ok "v1.28"⟩ rfl,
   c7_client_fail_fast.2.2.2.2.2.2.1 ⟨Except.ok (), Except.ok (),
     Except.ok "v1.28"⟩ rfl,
   c7_client_fail_fast.2.2.2.2.2.2.2.1 "bad .env" (Except.ok ()),
   c7_client_fail_fast.2.2.2.2.2.2.2.2 (Except.ok ()) "failed health check"⟩

/-! ## C8: malformed create bodies are rejected before the remote call -/

/-- C8: when the body of a create request is missing, lacks the required
name field, or carries it with a non-string JSON type, the secret,
config-map and deployment create handlers all answer 400 with a message
prefixed by the fixed validation text, and none of them performs the
remote call. -/
theorem c8_bad_body_rejected :
    ∀ (body : Option Json) (remote : Except RemoteErr Unit),
      (body = none ∨
        (∃ j, body = some j ∧ jsonField j "name" = none) ∨
        (∃ j t, body = some j ∧ jsonField j "name" = some t ∧
          ∀ s, t ≠ Json.str s)) →
      ((createSecretHandler body remote).status = 400 ∧
        (createSecretHandler body remote).remoteCalled = false ∧
        ∃ m, (createSecretHandler body remote).errorText =
          some ("Invalid request format: " ++ m)) ∧
      ((createConfigMapHandler body remote).status = 400 ∧
        (createConfigMapHandler body remote).remoteCalled = false ∧
        ∃ m, (createConfigMapHandler body remote).errorText =
          some ("Invalid request format: " ++ m)) ∧
      ((createDeploymentHandler body remote).status = 400 ∧
        (createDeploymentHandler body remote).remoteCalled = false ∧
        ∃ m, (createDeploymentHandler body remote).errorText =
          some ("Invalid request format: " ++ m)) := by
  intro body remote hbad
  have hname : ∀ j, body = some j → ∃ e, requiredString j "name" = Except.error e := by
    intro j hj
    rcases hbad with rfl | ⟨j2, hj2, hnone⟩ | ⟨j2, t, hj2, hsome, hnotstr⟩
    · cases hj
    · rw [hj] at hj2
      cases hj2
      exact ⟨"Key: name is required", by simp [requiredString, hnone]⟩
    · rw [hj] at hj2
      cases hj2
      refine ⟨"field name has the wrong type", ?_⟩
      simp only [requiredString, hsome]
      cases t with
      | str s => exact absurd rfl (hnotstr s)
      | null => rfl
      | num n => rfl
      | bool b => rfl
      | arr xs => rfl
      | obj fs => rfl
  have hsec : ∃ e, bindSecretCreateReq body = Except.error e := by
    cases body with
    | none => exact ⟨"invalid JSON body", rfl⟩
    | some j =>
        obtain ⟨e, he⟩ := hname j rfl
        exact ⟨e, by simp [bindSecretCreateReq, he]⟩
  have hcm : ∃ e, bindConfigMapCreateReq body = Except.error e := by
    cases body with
    | none => exact ⟨"invalid JSON body", rfl⟩
    | some j =>
        obtain ⟨e, he⟩ := hname j rfl
        exact ⟨e, by simp [bindConfigMapCreateReq, he]⟩
  have hdep : ∃ e, bindDeploymentCreateReq body = Except.error e := by
    cases body with
    | none => exact ⟨"invalid JSON body", rfl⟩
    | some j =>
        obtain ⟨e, he⟩ := hname j rfl
        exact ⟨e, by simp [bindDeploymentCreateReq, he]⟩
  obtain ⟨e1, he1⟩ := hsec
  obtain ⟨e2, he2⟩ := hcm
  obtain ⟨e3, he3⟩ := hdep
  refine ⟨?_, ?_, ?_⟩
  · simp [createSecretHandler, he1]
  · simp [createConfigMapHandler, he2]
  · simp [createDeploymentHandler, he3]

/-- C8 witness: a concrete body that lacks the required name field. -/
theorem c8_bad_body_rejected_witness :
    ((createSecretHandler (some (Json.obj [("type", Json.str "Opaque")]))
        (Except.ok ())).status = 400 ∧
      (createSecretHandler (some (Json.obj [("type", Json.str "Opaque")]))
        (Except.ok ())).remoteCalled = false ∧
      ∃ m, (createSecretHandler (some (Json.obj [("type", Json.str "Opaque")]))
        (Except.ok ())).errorText = some ("Invalid request format: " ++ m)) ∧
    ((createConfigMapHandler (some (Json.obj [("type", Json.str "Opaque")]))
        (Except.ok ())).status = 400 ∧
      (createConfigMapHandler (some (Json.obj [("type", Json.str "Opaque")]))
        (Except.ok ())).remoteCalled = false ∧
      ∃ m, (createConfigMapHandler (some (Json.obj [("type", Json.str "Opaque")]))
        (Except.ok ())).errorText = some ("Invalid request format: " ++ m)) ∧
    ((createDeploymentHandler (some (Json.obj [("type", Json.str "Opaque")]))
        (Except.ok ())).status = 400 ∧
      (createDeploymentHandler (some (Json.obj [("type", Json.str "Opaque")]))
        (Except.ok ())).remoteCalled = false ∧
      ∃ m, (createDeploymentHandler (some (Json.obj [("type", Json.str "Opaque")]))
        (Except.ok ())).errorText = some ("Invalid request format: " ++ m)) :=
  c8_bad_body_rejected (some (Json.obj [("type", Json.str "Opaque")]))
    (Except.ok ())
    (Or.inr (Or.inl ⟨Json.obj [("type", Json.str "Opaque")], rfl, rfl⟩))

/-! ## C9: the deployment status replica dereference -/

/-- C9: after a successful fetch, `GetDeploymentStatus` unconditionally
dereferences `Spec.Replicas`; a nil pointer reaches the nil-dereference
branch, and a non-nil pointer yields the replica-count report, so the
operation is panic-free exactly under the non-nil precondition. -/
theorem c9_deployment_status_deref :
    (∀ d : Deployment, d.specReplicas = none →
      getDeploymentStatus (Except.ok d) = ExecResult.nilDeref) ∧
    (∀ (d : Deployment) (r : Int), d.specReplicas = some r →
      getDeploymentStatus (Except.ok d) =
        ExecResult.ok ⟨r, d.statusReplicas, d.updatedReplicas, d.readyReplicas,
          d.availableReplicas⟩) ∧
    (∀ d : Deployment,
      getDeploymentStatus (Except.ok d) ≠ ExecResult.nilDeref ↔
        d.specReplicas ≠ none) := by
  refine ⟨?_, ?_, ?_⟩
  · intro d h
    simp [getDeploymentStatus, h]
  · intro d r h
    simp [getDeploymentStatus, h]
  · intro d
    cases h : d.specReplicas with
    | none => simp [getDeploymentStatus, h]
    | some r => simp [getDeploymentStatus, h]

/-- C9 witness: a deployment fetched with a nil replica pointer reaches the
nil-dereference branch; one with three desired replicas reports them. -/
theorem c9_deployment_status_deref_witness :
    getDeploymentStatus (Except.ok
        ⟨"web", none, 0, 0, 0, 0, "RollingUpdate", 0⟩) =
      ExecResult.nilDeref ∧
    getDeploymentStatus (Except.ok
        ⟨"web", some 3, 3, 3, 2, 2, "RollingUpdate", 0⟩) =
      ExecResult.ok ⟨3, 3, 3, 2, 2⟩ :=
  ⟨c9_deployment_status_deref.1 ⟨"web", none, 0, 0, 0, 0, "RollingUpdate", 0⟩ rfl,
   c9_deployment_status_deref.2.1 ⟨"web", some 3, 3, 3, 2, 2, "RollingUpdate", 0⟩
     3 rfl⟩

/-! ## C10: the namespace metrics counters -/

theorem lookupCount_bumpCount_ne (m : List (String × Int)) (k' k : String)
    (h : k' ≠ k) : lookupCount (bumpCount m k') k = lookupCount m k := by
  induction m with
  | nil => simp [bumpCount, lookupCount, h]
  | cons kv rest ih =>
      obtain ⟨k0, v0⟩ := kv
      by_cases h0 : k0 = k'
      · subst h0
        simp [bumpCount, lookupCount, h]
      · simp only [bumpCount, beq_iff_eq, h0, if_false]
        by_cases h1 : k0 = k
        · subst h1
          simp [lookupCount]
        · simp [lookupCount, h1, ih]

theorem countOf_bumpCount_self (m : List (String × Int)) (k : String) :
    countOf (bumpCount m k) k = countOf m k + 1 := by
  induction m with
  | nil => simp [bumpCount, countOf, lookupCount]
  | cons kv rest ih =>
      obtain ⟨k0, v0⟩ := kv
      by_cases h0 : k0 = k
      · subst h0
        simp [bumpCount, countOf, lookupCount]
      · simp only [bumpCount, beq_iff_eq, h0, if_false, countOf, lookupCount]
        simpa [countOf] using ih

theorem countOf_foldl_bumpCount (pods : List Pod) :
    ∀ (m : List (String × Int)) (k : String),
      countOf (pods.foldl (fun acc p => bumpCount acc p.phase) m) k =
        countOf m k + (pods.countP (fun p => p.phase == k) : Int) := by
  induction pods with
  | nil => intro m k; simp
  | cons p rest ih =>
      intro m k
      rw [List.foldl_cons, ih]
      by_cases h : p.phase = k
      · subst h
        rw [countOf_bumpCount_self]
        rw [List.countP_cons]
        simp only [beq_self_eq_true, if_true]
        push_cast
        ring
      · have : countOf (bumpCount m p.phase) k = countOf m k := by
          unfold countOf
          rw [lookupCount_bumpCount_ne m p.phase k h]
        rw [this, List.countP_cons]
        simp [h]

theorem lookupCount_foldl_bumpCount_ne (pods : List Pod) :
    ∀ (m : List (String × Int)) (k : String), (∀ p ∈ pods, p.phase ≠ k) →
      lookupCount (pods.foldl (fun acc p => bumpCount acc p.phase) m) k =
        lookupCount m k := by
  induction pods with
  | nil => intro m k _; rfl
  | cons p rest ih =>
      intro m k h
      rw [List.foldl_cons, ih _ k (fun q hq => h q (List.mem_cons_of_mem p hq))]
      exact lookupCount_bumpCount_ne m p.phase k (h p (List.mem_cons_self p rest))

/-- C10: when every fetched pod carries one of the capitalized remote phase
strings, the four pre-seeded lowercase counters stay at zero in the metrics
report (the tallies land on the distinct capitalized keys), the capitalized
key of each phase counts exactly the pods in that phase, and `podCount` is
the length of the fetched pod list. -/
theorem c10_namespace_metrics_lowercase_zero :
    ∀ pods : List Pod, (∀ p ∈ pods, p.phase ∈ capitalizedPhases) →
      (getNamespaceMetrics pods).podCount = pods.length ∧
      lookupCount (getNamespaceMetrics pods).statusCounters "running" = some 0 ∧
      lookupCount (getNamespaceMetrics pods).statusCounters "pending" = some 0 ∧
      lookupCount (getNamespaceMetrics pods).statusCounters "failed" = some 0 ∧
      lookupCount (getNamespaceMetrics pods).statusCounters "succeeded" = some 0 ∧
      (∀ k ∈ capitalizedPhases,
        countOf (getNamespaceMetrics pods).statusCounters k =
          (pods.countP (fun p => p.phase == k) : Int)) := by
  intro pods hphase
  have hlow : ∀ k : String, k ∉ capitalizedPhases →
      lookupCount (getNamespaceMetrics pods).statusCounters k =
        lookupCount seedStatusCounters k := by
    intro k hk
    refine lookupCount_foldl_bumpCount_ne pods seedStatusCounters k ?_
    intro p hp hEq
    exact hk (hEq ▸ hphase p hp)
  refine ⟨rfl, ?_, ?_, ?_, ?_, ?_⟩
  · rw [hlow "running" (by decide)]; rfl
  · rw [hlow "pending" (by decide)]; rfl
  · rw [hlow "failed" (by decide)]; rfl
  · rw [hlow "succeeded" (by decide)]; rfl
  · intro k hk
    have hseed : countOf seedStatusCounters k = 0 := by
      fin_cases hk <;> rfl
    have := countOf_foldl_bumpCount pods seedStatusCounters k
    simp only [getNamespaceMetrics]
    rw [this, hseed, zero_add]

/-- C10 witness: two running pods and one pending pod: the lowercase
counters read zero while the capitalized keys carry the tallies. -/
theorem c10_namespace_metrics_witness :
    (getNamespaceMetrics [⟨"a", "Running", [], []⟩, ⟨"b", "Running", [], []⟩,
        ⟨"c", "Pending", [], []⟩]).podCount = 3 ∧
    lookupCount (getNamespaceMetrics [⟨"a", "Running", [], []⟩,
        ⟨"b", "Running", [], []⟩, ⟨"c", "Pending", [], []⟩]).statusCounters
      "running" = some 0 :=
  ⟨(c10_namespace_metrics_lowercase_zero
      [⟨"a", "Running", [], []⟩, ⟨"b", "Running", [], []⟩, ⟨"c", "Pending", [], []⟩]
      (by decide)).1,
   (c10_namespace_metrics_lowercase_zero
      [⟨"a", "Running", [], []⟩, ⟨"b", "Running", [], []⟩, ⟨"c", "Pending", [], []⟩]
      (by decide)).2.1⟩

end K8sGlance
